import Mathlib

/-!
Shallow embedding of src/skewkiller.py (class CustomTimeManager and the
function main). Machine-level effects — the socket, the libc calls, the
subprocesses and the delivered signals — are carried as explicit
environment values; each Python function becomes a Lean function of the
relevant environment. Floating-point wall-clock values are modelled as
rationals.
-/

namespace SkewKiller

/-- Big-endian unsigned 32-bit integer from four bytes, as produced by
struct.unpack with the network byte-order format for two unsigned ints. -/
def bytesToU32BE (b0 b1 b2 b3 : Nat) : Nat :=
  ((b0 * 256 + b1) * 256 + b2) * 256 + b3

/-- Seconds between the NTP epoch (1900-01-01) and the Unix epoch
(1970-01-01); the constant 2208988800 at line 110 of skewkiller.py. -/
def ntpEpochDelta : Nat := 2208988800

/-- Outcome of the single UDP exchange performed by get_ntp_time, as the
code distinguishes them in its except clauses: a reply datagram arrives,
the socket times out, address resolution raises gaierror, or a socket
operation raises some other exception, reaching the blanket except clause
at lines 128-130 — sendError when sendto itself raises (for example
OSError on an address inet_aton accepts but the stack refuses, such as
the broadcast address, so no datagram leaves), recvError when the send
succeeded and recvfrom raises (for example ConnectionRefusedError from an
ICMP port-unreachable when the target serves no NTP). -/
inductive NetOutcome where
  | reply (response : List Nat)
  | timeout
  | gaierror
  | sendError
  | recvError
deriving DecidableEq

/-- Environment of one call to CustomTimeManager.get_ntp_time: the verdict
of socket.inet_aton on server_ip (method validate_ip, lines 64-70), the
socket outcome of the exchange, and the two local wall-clock readings
taken around it (send_time at line 90, receive_time at line 95). -/
structure NtpEnv where
  ipValid : Bool
  net : NetOutcome
  send_time : ℚ
  receive_time : ℚ
deriving DecidableEq

/-- Result of get_ntp_time: the returned value (None on every failure) and
how many request datagrams the call sent. -/
structure NtpResult where
  value : Option ℚ
  requestsSent : Nat
deriving DecidableEq

/-- CustomTimeManager.get_ntp_time (lines 72-130). The address is checked
with validate_ip before anything is sent; one request is then transmitted
unless sendto itself raises; timeout and gaierror yield None through their
dedicated except clauses, and any other exception raised by the socket
operations yields None through the blanket except clause at lines
128-130; a reply shorter than 48 bytes yields None; otherwise bytes 40-47
are decoded as two big-endian 32-bit fields and the adjusted timestamp is
computed exactly as at lines 103-115. -/
def get_ntp_time (env : NtpEnv) : NtpResult :=
  if env.ipValid = false then ⟨none, 0⟩
  else
    match env.net with
    | .timeout => ⟨none, 1⟩
    | .gaierror => ⟨none, 1⟩
    | .sendError => ⟨none, 0⟩
    | .recvError => ⟨none, 1⟩
    | .reply response =>
      if response.length < 48 then ⟨none, 1⟩
      else
        let ntp_seconds : Nat :=
          bytesToU32BE (response.getD 40 0) (response.getD 41 0)
            (response.getD 42 0) (response.getD 43 0)
        let ntp_fraction : Nat :=
          bytesToU32BE (response.getD 44 0) (response.getD 45 0)
            (response.getD 46 0) (response.getD 47 0)
        let unix_timestamp : ℚ :=
          (ntp_seconds : ℚ) - (ntpEpochDelta : ℚ) + (ntp_fraction : ℚ) / 2 ^ 32
        let network_delay : ℚ := (env.receive_time - env.send_time) / 2
        ⟨some (unix_timestamp - network_delay), 1⟩

/-- The three clock-write mechanisms of set_system_time, in source order:
libc settimeofday (lines 144-154), libc clock_settime (lines 156-166), and
the external date utility run as a subprocess (lines 168-178). -/
inductive Mechanism where
  | settimeofday
  | clock_settime
  | date_cmd
deriving DecidableEq

/-- Environment of one call to set_system_time: whether each mechanism,
if attempted, reports success (a zero return code for the two libc calls,
a zero exit status for the date utility; a raised exception counts as
failure, since each attempt is wrapped in its own try block). -/
structure MechEnv where
  settimeofday_ok : Bool
  clock_settime_ok : Bool
  date_cmd_ok : Bool
deriving DecidableEq

/-- Whether a given mechanism reports success in a given environment. -/
def mechOk (env : MechEnv) : Mechanism → Bool
  | .settimeofday => env.settimeofday_ok
  | .clock_settime => env.clock_settime_ok
  | .date_cmd => env.date_cmd_ok

/-- Result of set_system_time: the returned boolean and the list of
mechanisms attempted, in the order they were tried. -/
structure SetTimeResult where
  success : Bool
  attempts : List Mechanism
deriving DecidableEq

/-- CustomTimeManager.set_system_time (lines 132-181). Without root it
returns False at once (lines 134-136); with root but no libc handle it
returns False at once (lines 138-140), reaching none of the three
mechanisms, the date subprocess included; otherwise the mechanisms are
tried in source order and the first success returns True. The timestamp
argument is marshalled into each attempt but never influences control
flow, which depends only on privilege, the libc handle and the per-attempt
return codes. -/
def set_system_time (is_root libcLoaded : Bool) (timestamp : ℚ)
    (env : MechEnv) : SetTimeResult :=
  if is_root = false then ⟨false, []⟩
  else if libcLoaded = false then ⟨false, []⟩
  else if env.settimeofday_ok then ⟨true, [.settimeofday]⟩
  else if env.clock_settime_ok then ⟨true, [.settimeofday, .clock_settime]⟩
  else if env.date_cmd_ok then
    ⟨true, [.settimeofday, .clock_settime, .date_cmd]⟩
  else ⟨false, [.settimeofday, .clock_settime, .date_cmd]⟩

/-- Result of sync_time_with_server: the returned boolean and the number
of times set_system_time was invoked. -/
structure SyncResult where
  success : Bool
  setCalls : Nat
deriving DecidableEq

/-- CustomTimeManager.sync_time_with_server (lines 183-202). Requires
root; queries the server; on a query failure returns False; when the
absolute difference between server time and local time is under 0.1
seconds it returns True without touching the clock; otherwise it writes
the server time via set_system_time. -/
def sync_time_with_server (is_root libcLoaded : Bool) (ntp : NtpEnv)
    (local_time : ℚ) (mech : MechEnv) : SyncResult :=
  if is_root = false then ⟨false, 0⟩
  else
    match (get_ntp_time ntp).value with
    | none => ⟨false, 0⟩
    | some server_time =>
      if |server_time - local_time| < 1 / 10 then ⟨true, 0⟩
      else ⟨(set_system_time is_root libcLoaded server_time mech).success, 1⟩

/-- The saved state of save_current_time (lines 53-62): the wall-clock
reading time.time() and the timezone offset. The single reading serves
both as the saved original time and as the capture instant. -/
structure ClockSnapshot where
  original_time : ℚ
  original_timezone_offset : ℤ
deriving DecidableEq

/-- CustomTimeManager.save_current_time: stores one wall-clock reading
and the timezone offset. -/
def save_current_time (wall_now : ℚ) (tz : ℤ) : ClockSnapshot :=
  ⟨wall_now, tz⟩

/-- The capture instant of a snapshot. In the code no separate field
exists: the stored original_time is itself the reading taken at capture. -/
def captureTime (s : ClockSnapshot) : ℚ := s.original_time

/-- The restore target computed at lines 216-221: the saved original time
plus the wall-clock duration elapsed since it was saved, both measured
against the same stored reading. -/
def restore_target (s : ClockSnapshot) (now : ℚ) : ℚ :=
  s.original_time + (now - s.original_time)

/-- Result of restore_original_time: the returned boolean and the number
of times set_system_time was invoked. -/
structure RestoreResult where
  success : Bool
  setCalls : Nat
deriving DecidableEq

/-- CustomTimeManager.restore_original_time (lines 204-228). With no saved
snapshot or without root it returns False without writing; otherwise it
computes the restore target and passes it to set_system_time. -/
def restore_original_time (snap : Option ClockSnapshot)
    (is_root libcLoaded : Bool) (now : ℚ) (mech : MechEnv) : RestoreResult :=
  match snap with
  | none => ⟨false, 0⟩
  | some s =>
    if is_root = false then ⟨false, 0⟩
    else ⟨(set_system_time is_root libcLoaded (restore_target s now) mech).success, 1⟩

/-- The observable calls main makes on the time manager and the command
runner, recorded in program order. -/
inductive Ev where
  | save
  | syncCall
  | execCall
  | restoreCall
deriving DecidableEq

/-- Points after snapshot capture at which a SIGINT or SIGTERM may be
delivered. Both signals are routed to signal_handler (lines 272-282),
which raises SystemExit via sys.exit(1) inside the try block of main. -/
inductive InterruptPoint where
  | duringSync
  | duringCmd
deriving DecidableEq

/-- Environment of one run of main (lines 278-356): the root check, the
non-emptiness checks on the two arguments, whether time.time() succeeds in
save_current_time, the inputs consumed by sync_time_with_server, an
optional delivered interrupt, the command verdict, and whether the body
raises an unexpected exception at the command stage. -/
structure MainEnv where
  isRoot : Bool
  argsOk : Bool
  libcLoaded : Bool
  saveOk : Bool
  ntp : NtpEnv
  localAtSync : ℚ
  mech : MechEnv
  interrupt : Option InterruptPoint
  cmdOk : Bool
  cmdRaises : Bool
deriving DecidableEq

/-- How the try body of main (lines 321-347) terminates: it runs to the
end, it raises SystemExit through sys.exit(1) on a step failure, it raises
SystemExit through the signal handler on an interrupt, or an unexpected
exception is caught by the except clause. In every one of these cases
Python runs the finally block before leaving the statement. -/
inductive BodyExit where
  | finished
  | sysExit
  | sigExit
  | excCaught
deriving DecidableEq

/-- The try body of main: save the current time (exit on failure), sync
with the server (exit on failure), then execute the command; an interrupt
delivered during sync or during the command raises SystemExit from the
signal handler after the corresponding call has started. -/
def mainBody (e : MainEnv) : List Ev × BodyExit :=
  if e.saveOk = false then ([Ev.save], .sysExit)
  else if e.interrupt = some .duringSync then ([Ev.save, Ev.syncCall], .sigExit)
  else if (sync_time_with_server e.isRoot e.libcLoaded e.ntp e.localAtSync e.mech).success = false then
    ([Ev.save, Ev.syncCall], .sysExit)
  else if e.interrupt = some .duringCmd then
    ([Ev.save, Ev.syncCall, Ev.execCall], .sigExit)
  else if e.cmdRaises then ([Ev.save, Ev.syncCall, Ev.execCall], .excCaught)
  else ([Ev.save, Ev.syncCall, Ev.execCall], .finished)

/-- Result of main: the trace of manager and runner calls, and whether the
process exited before entering the try block (root or argument check
failed, so no snapshot exists and no restore is attempted). -/
structure MainResult where
  trace : List Ev
  exitedEarly : Bool
deriving DecidableEq

/-- main (lines 278-356). The root check and the argument checks exit
before the time manager is created; afterwards the try body runs and the
finally block (lines 348-354) invokes restore_original_time exactly once,
whether the body finished, raised SystemExit, or had an exception caught. -/
def main (e : MainEnv) : MainResult :=
  if e.isRoot = false then ⟨[], true⟩
  else if e.argsOk = false then ⟨[], true⟩
  else ⟨(mainBody e).1 ++ [Ev.restoreCall], false⟩

/-- The try body never invokes restore itself: restore lives only in the
finally block. -/
theorem restoreCall_not_mem_mainBody (e : MainEnv) :
    Ev.restoreCall ∉ (mainBody e).1 := by
  unfold mainBody
  split
  · simp
  · split
    · simp
    · split
      · simp
      · split
        · simp
        · split
          · simp
          · simp

/-- C1: in every execution in which the snapshot was captured
(save_current_time ran and succeeded), main invokes restore_original_time
exactly once before process exit, as the last manager call, on every exit
path: normal completion, sync failure, command failure, unexpected
exception, and an interrupt delivered after the snapshot was taken. -/
theorem restore_invoked_exactly_once (e : MainEnv)
    (hroot : e.isRoot = true) (hargs : e.argsOk = true)
    (hsave : e.saveOk = true) :
    (main e).trace.count Ev.restoreCall = 1
      ∧ (main e).trace.getLast? = some Ev.restoreCall
      ∧ Ev.save ∈ (main e).trace := by
  have hmain : main e = ⟨(mainBody e).1 ++ [Ev.restoreCall], false⟩ := by
    unfold main
    rw [hroot, hargs]
    simp
  have hsavemem : Ev.save ∈ (mainBody e).1 := by
    unfold mainBody
    rw [hsave]
    split
    · exact List.mem_cons_self _ _
    · split
      · exact List.mem_cons_self _ _
      · split
        · exact List.mem_cons_self _ _
        · split
          · exact List.mem_cons_self _ _
          · split
            · exact List.mem_cons_self _ _
            · exact List.mem_cons_self _ _
  refine ⟨?_, ?_, ?_⟩
  · rw [hmain]
    show List.count Ev.restoreCall ((mainBody e).1 ++ [Ev.restoreCall]) = 1
    rw [List.count_append,
      List.count_eq_zero_of_not_mem (restoreCall_not_mem_mainBody e)]
    rfl
  · rw [hmain]
    show ((mainBody e).1 ++ [Ev.restoreCall]).getLast? = some Ev.restoreCall
    simp
  · rw [hmain]
    show Ev.save ∈ (mainBody e).1 ++ [Ev.restoreCall]
    exact List.mem_append_left _ hsavemem

/-- C1 witness: a concrete run — root held, arguments present, snapshot
captured, sync failing on a socket timeout — restores exactly once, last. -/
theorem restore_invoked_exactly_once_witness :
    (main ⟨true, true, true, true, ⟨false, .timeout, 0, 0⟩, 0,
        ⟨false, false, false⟩, none, true, false⟩).trace.count Ev.restoreCall = 1
      ∧ (main ⟨true, true, true, true, ⟨false, .timeout, 0, 0⟩, 0,
          ⟨false, false, false⟩, none, true, false⟩).trace.getLast? = some Ev.restoreCall
      ∧ Ev.save ∈ (main ⟨true, true, true, true, ⟨false, .timeout, 0, 0⟩, 0,
          ⟨false, false, false⟩, none, true, false⟩).trace :=
  restore_invoked_exactly_once _ rfl rfl rfl

/-- C2: for every reply of at least 48 bytes and every pair of local
send and receive times, get_ntp_time returns exactly the seconds field at
byte offset 40 (big-endian, unsigned 32-bit) minus 2208988800, plus the
fraction field at byte offset 44 divided by 2 to the 32, minus half the
local round trip. -/
theorem adjusted_timestamp_formula (env : NtpEnv) (response : List Nat)
    (hip : env.ipValid = true) (hnet : env.net = NetOutcome.reply response)
    (hlen : 48 ≤ response.length) :
    (get_ntp_time env).value =
      some ((bytesToU32BE (response.getD 40 0) (response.getD 41 0)
            (response.getD 42 0) (response.getD 43 0) : ℚ)
          - 2208988800
          + (bytesToU32BE (response.getD 44 0) (response.getD 45 0)
              (response.getD 46 0) (response.getD 47 0) : ℚ) / 2 ^ 32
          - (env.receive_time - env.send_time) / 2) := by
  unfold get_ntp_time
  rw [hip, hnet]
  simp [Nat.not_lt.mpr hlen, ntpEpochDelta]

/-- Bytes of a 48-byte reply whose transmit-timestamp seconds field holds
3912345678 and whose fraction field holds 0. -/
def respFixture : List Nat :=
  List.replicate 40 0 ++ [233, 49, 168, 78, 0, 0, 0, 0]

/-- C2 witness: on the fixture reply with send and receive times both 0,
the returned timestamp is 3912345678 − 2208988800 = 1703356878. -/
theorem adjusted_timestamp_formula_witness :
    (get_ntp_time ⟨true, NetOutcome.reply respFixture, 0, 0⟩).value =
      some (1703356878 : ℚ) := by
  rw [adjusted_timestamp_formula ⟨true, NetOutcome.reply respFixture, 0, 0⟩
    respFixture rfl rfl (by decide)]
  have h40 : respFixture.getD 40 0 = 233 := by decide
  have h41 : respFixture.getD 41 0 = 49 := by decide
  have h42 : respFixture.getD 42 0 = 168 := by decide
  have h43 : respFixture.getD 43 0 = 78 := by decide
  have h44 : respFixture.getD 44 0 = 0 := by decide
  have h45 : respFixture.getD 45 0 = 0 := by decide
  have h46 : respFixture.getD 46 0 = 0 := by decide
  have h47 : respFixture.getD 47 0 = 0 := by decide
  rw [h40, h41, h42, h43, h44, h45, h46, h47]
  norm_num [bytesToU32BE]

/-- C6: a reply shorter than 48 bytes never yields a timestamp: the value
returned by get_ntp_time is None. -/
theorem short_response_rejected (env : NtpEnv) (response : List Nat)
    (hnet : env.net = NetOutcome.reply response)
    (hshort : response.length < 48) :
    (get_ntp_time env).value = none := by
  unfold get_ntp_time
  rw [hnet]
  rcases h : env.ipValid with _ | _
  · simp
  · simp [hshort]

/-- C6 witness: the empty reply is rejected. -/
theorem short_response_rejected_witness :
    (get_ntp_time ⟨true, NetOutcome.reply [], 0, 0⟩).value = none :=
  short_response_rejected ⟨true, NetOutcome.reply [], 0, 0⟩ [] rfl (by decide)

/-- C8 counterexample: on an address that socket.inet_aton rejects,
get_ntp_time returns failure having sent zero request datagrams, so it is
not the case that one request is sent on every call; and on a validated
address whose recvfrom raises an unexpected exception, get_ntp_time fails
through the blanket except clause although the outcome is neither a
timeout, nor a name-resolution failure (the address validated), nor a
malformed reply — so the call does not fail only for one of exactly
three reasons. -/
theorem invalid_address_sends_no_request :
    ((get_ntp_time ⟨false, NetOutcome.timeout, 0, 0⟩).requestsSent = 0
        ∧ ¬ (get_ntp_time ⟨false, NetOutcome.timeout, 0, 0⟩).requestsSent = 1
        ∧ (get_ntp_time ⟨false, NetOutcome.timeout, 0, 0⟩).value = none)
      ∧ ((get_ntp_time ⟨true, NetOutcome.recvError, 0, 0⟩).value = none
        ∧ (⟨true, NetOutcome.recvError, 0, 0⟩ : NtpEnv).ipValid = true
        ∧ NetOutcome.recvError ≠ NetOutcome.timeout
        ∧ NetOutcome.recvError ≠ NetOutcome.gaierror
        ∧ ∀ response, NetOutcome.recvError ≠ NetOutcome.reply response) := by
  refine ⟨⟨rfl, ?_, rfl⟩, rfl, rfl, by decide, by decide, ?_⟩
  · intro h
    simp [get_ntp_time] at h
  · intro response h
    cases h

/-- C8 (amended): get_ntp_time fails exactly when the address fails
validation (the name-resolution failure), the socket times out, address
resolution raises gaierror, a socket operation raises an unexpected
exception while sending or receiving (absorbed by the blanket except
clause into the same failure result), or the reply is shorter than 48
bytes; it performs no internal retries — at most one request is sent per
call, and exactly one whenever the address validates and the send itself
does not raise. -/
theorem query_failure_taxonomy (env : NtpEnv) :
    ((get_ntp_time env).value = none ↔
        env.ipValid = false ∨ env.net = NetOutcome.timeout
          ∨ env.net = NetOutcome.gaierror
          ∨ env.net = NetOutcome.sendError
          ∨ env.net = NetOutcome.recvError
          ∨ ∃ response, env.net = NetOutcome.reply response
              ∧ response.length < 48)
      ∧ (get_ntp_time env).requestsSent ≤ 1
      ∧ (env.ipValid = true → env.net ≠ NetOutcome.sendError →
          (get_ntp_time env).requestsSent = 1) := by
  rcases env with ⟨ip, net, s, r⟩
  rcases ip with _ | _
  · rcases net with response | _ | _ | _ | _ <;> simp [get_ntp_time]
  · rcases net with response | _ | _ | _ | _
    · by_cases h : response.length < 48 <;> simp [get_ntp_time, h]
    · simp [get_ntp_time]
    · simp [get_ntp_time]
    · simp [get_ntp_time]
    · simp [get_ntp_time]

/-- C8 witness: with a validating address and a socket timeout, exactly
one request was sent and the call failed. -/
theorem query_failure_taxonomy_witness :
    (get_ntp_time ⟨true, NetOutcome.timeout, 0, 0⟩).requestsSent = 1
      ∧ (get_ntp_time ⟨true, NetOutcome.timeout, 0, 0⟩).value = none :=
  ⟨(query_failure_taxonomy ⟨true, NetOutcome.timeout, 0, 0⟩).2.2 rfl (by decide),
    (query_failure_taxonomy ⟨true, NetOutcome.timeout, 0, 0⟩).1.mpr
      (Or.inr (Or.inl rfl))⟩

/-- C3 counterexample: with privilege held but the libc handle not
loaded, the third mechanism would succeed, yet set_system_time returns
failure after zero attempts — so, as stated over every privileged call,
the claim that success is returned whenever one of the three mechanisms
succeeds is false. -/
theorem privileged_but_no_libc_counterexample :
    (set_system_time true false 0 ⟨false, false, true⟩).success = false
      ∧ mechOk ⟨false, false, true⟩ Mechanism.date_cmd = true
      ∧ (set_system_time true false 0 ⟨false, false, true⟩).attempts = [] :=
  ⟨rfl, rfl, rfl⟩

/-- The result of set_system_time does not depend on the timestamp value:
the marshalled argument never influences which mechanisms run or succeed. -/
theorem set_system_time_timestamp_irrelevant (is_root libcLoaded : Bool)
    (timestamp : ℚ) (env : MechEnv) :
    set_system_time is_root libcLoaded timestamp env
      = set_system_time is_root libcLoaded 0 env := rfl

/-- C3 (amended): when the caller holds elevated privilege and the libc
handle was loaded at construction, set_system_time tries settimeofday,
then clock_settime, then the external date utility, in that strict order,
stopping at the first success; it succeeds exactly when one of the three
mechanisms succeeds, and when the first two fail and the third succeeds it
returns success after exactly three attempts. -/
theorem set_system_time_fallback_chain (timestamp : ℚ) (env : MechEnv) :
    (set_system_time true true timestamp env).attempts
        <+: [Mechanism.settimeofday, Mechanism.clock_settime, Mechanism.date_cmd]
      ∧ ((set_system_time true true timestamp env).success = true ↔
          (env.settimeofday_ok = true ∨ env.clock_settime_ok = true
            ∨ env.date_cmd_ok = true))
      ∧ ((set_system_time true true timestamp env).success = true →
          ((set_system_time true true timestamp env).attempts.getLast?.any
              (mechOk env) = true
            ∧ ∀ m ∈ (set_system_time true true timestamp env).attempts.dropLast,
                mechOk env m = false))
      ∧ (env.settimeofday_ok = false → env.clock_settime_ok = false →
          env.date_cmd_ok = true →
          (set_system_time true true timestamp env).success = true
            ∧ (set_system_time true true timestamp env).attempts.length = 3) := by
  simp only [set_system_time_timestamp_irrelevant]
  rcases env with ⟨s, c, d⟩
  rcases s with _ | _ <;> rcases c with _ | _ <;> rcases d with _ | _ <;> decide

/-- C3 witness: first two mechanisms failing and the date utility
succeeding yields success after exactly three attempts. -/
theorem set_system_time_fallback_chain_witness :
    (set_system_time true true 0 ⟨false, false, true⟩).success = true
      ∧ (set_system_time true true 0 ⟨false, false, true⟩).attempts.length = 3 :=
  (set_system_time_fallback_chain 0 ⟨false, false, true⟩).2.2.2 rfl rfl rfl

/-- C4: without elevated privilege, set_system_time fails immediately and
attempts zero mechanisms — no libc call and no date subprocess — whatever
the libc state, the timestamp and the mechanism environment. -/
theorem set_system_time_requires_privilege (libcLoaded : Bool)
    (timestamp : ℚ) (env : MechEnv) :
    set_system_time false libcLoaded timestamp env = ⟨false, []⟩ := by
  unfold set_system_time
  simp

/-- C10: when the libc handle failed to load at construction,
set_system_time returns failure after zero attempts even with elevated
privilege, the date subprocess included, although that mechanism does not
depend on libc. -/
theorem set_system_time_requires_libc (timestamp : ℚ) (env : MechEnv) :
    set_system_time true false timestamp env = ⟨false, []⟩ := by
  unfold set_system_time
  simp

/-- C5: whenever the query returns an authoritative time within 0.1
seconds of the local time, sync_time_with_server reports success as
already synchronized and invokes set_system_time zero times. -/
theorem sync_skips_write_when_close (libcLoaded : Bool) (ntp : NtpEnv)
    (local_time server_time : ℚ) (mech : MechEnv)
    (hq : (get_ntp_time ntp).value = some server_time)
    (hclose : |server_time - local_time| < 1 / 10) :
    sync_time_with_server true libcLoaded ntp local_time mech = ⟨true, 0⟩ := by
  unfold sync_time_with_server
  rw [hq]
  simp
  exact lt_of_lt_of_eq hclose (by norm_num)

/-- Bytes of a 48-byte reply whose transmit-timestamp seconds field holds
exactly 2208988800 (Unix time 0) and whose fraction field holds 0. -/
def respEpoch : List Nat :=
  List.replicate 40 0 ++ [131, 170, 126, 128, 0, 0, 0, 0]

/-- C5 witness: server time 0 against local time 0 — difference 0, below
the threshold — reports success with zero clock writes. -/
theorem sync_skips_write_when_close_witness :
    sync_time_with_server true true ⟨true, NetOutcome.reply respEpoch, 0, 0⟩
        0 ⟨true, true, true⟩ = ⟨true, 0⟩ :=
  sync_skips_write_when_close true ⟨true, NetOutcome.reply respEpoch, 0, 0⟩
    0 0 ⟨true, true, true⟩
    (by
      rw [adjusted_timestamp_formula ⟨true, NetOutcome.reply respEpoch, 0, 0⟩
        respEpoch rfl rfl (by decide)]
      have h40 : respEpoch.getD 40 0 = 131 := by decide
      have h41 : respEpoch.getD 41 0 = 170 := by decide
      have h42 : respEpoch.getD 42 0 = 126 := by decide
      have h43 : respEpoch.getD 43 0 = 128 := by decide
      have h44 : respEpoch.getD 44 0 = 0 := by decide
      have h45 : respEpoch.getD 45 0 = 0 := by decide
      have h46 : respEpoch.getD 46 0 = 0 := by decide
      have h47 : respEpoch.getD 47 0 = 0 := by decide
      rw [h40, h41, h42, h43, h44, h45, h46, h47]
      norm_num [bytesToU32BE])
    (by norm_num)

/-- C7: for every snapshot and every fixed reading of the current time,
the restore target equals the saved original time plus the elapsed
interval from the capture instant to that reading, and recomputing it with
the same reading yields the same target. -/
theorem restore_target_formula (s : ClockSnapshot) (now : ℚ) :
    restore_target s now = s.original_time + (now - captureTime s)
      ∧ restore_target s now = restore_target s now :=
  ⟨rfl, rfl⟩

/-- C9: because the saved original time and the capture instant are one
wall-clock reading, the restore target collapses to the current reading
itself: restore_original_time passes exactly the value the possibly
already altered wall clock currently reads to set_system_time, never a
value derived from the pre-transaction clock. -/
theorem restore_target_is_now (wall_now now : ℚ) (tz : ℤ)
    (libcLoaded : Bool) (mech : MechEnv) :
    restore_target (save_current_time wall_now tz) now = now
      ∧ restore_original_time (some (save_current_time wall_now tz)) true
          libcLoaded now mech
        = ⟨(set_system_time true libcLoaded now mech).success, 1⟩ := by
  have h : restore_target (save_current_time wall_now tz) now = now := by
    unfold restore_target save_current_time
    ring
  refine ⟨h, ?_⟩
  simp [restore_original_time, h]

end SkewKiller
